import Mathlib

/-!
Verification of the schema-execution orchestration layer
(`src/strawberry/schema/schema.py`).

The file shallowly embeds the `Schema` class and its collaborators.
Code present under `src/` is translated directly; collaborators that are
part of this repository but absent from `src/` (the `.execute` module,
`ExtensionsRunner`, `get_object_type`, `get_directive_type`,
`ExecutionResult` from `.base`) and the external query engine
(`graphql-core`) are modelled from the specification, each such
definition carrying a doc comment saying so.

Payload values that the orchestration layer never inspects (resolved
data, error objects, variable/root/context values, AST nodes, extension
results) are represented by simple concrete carriers (`Nat`, `String`)
so that everything stays executable and decidable.
-/

/-- Engine-native object type (graphql `GraphQLObjectType`), opaque to the
orchestration layer apart from its name. -/
structure GraphQLObjectType where
  name : String
deriving DecidableEq, Repr, Inhabited

/-- Engine-native directive descriptor (graphql `GraphQLDirective`), opaque
apart from its name. -/
structure GraphQLDirective where
  name : String
deriving DecidableEq, Repr, Inhabited

/-- Modelled from the spec: the engine's fixed baseline set of built-in
directives (spec §6, §4.1: "a fixed baseline directive set", e.g. `@skip`,
`@include`); `graphql.type.directives.specified_directives` is external code. -/
def specified_directives : List GraphQLDirective :=
  [⟨"include"⟩, ⟨"skip"⟩, ⟨"deprecated"⟩]

/-- The tagged definition payload of a registry entry: object-type,
scalar or enum definition (spec §3, ConcreteType's tagged union); each
carries its type name. -/
inductive Definition where
  | objectDef : String → Definition
  | scalarDef : String → Definition
  | enumDef : String → Definition
deriving DecidableEq, Repr, Inhabited

/-- The name carried by a definition. -/
def Definition.name : Definition → String
  | .objectDef n => n
  | .scalarDef n => n
  | .enumDef n => n

/-- A registry entry (`strawberry.schema.types.ConcreteType`): carries a
definition payload. -/
structure ConcreteType where
  definition : Definition
deriving DecidableEq, Repr, Inhabited

/-- The type registry `self.type_map : Dict[str, ConcreteType]`, modelled as
an association list from type name to ConcreteType. -/
abbrev TypeMap := List (String × ConcreteType)

/-- Python dict lookup `m[name]` guarded by `name in m`: the first entry
with the given key. -/
def TypeMap.find (m : TypeMap) (n : String) : Option ConcreteType :=
  (m.find? (fun p => p.1 == n)).map Prod.snd

/-- A host type declaration (a decorated class handed to the Schema
constructor); the orchestration layer treats it opaquely. -/
structure HostType where
  name : String
deriving DecidableEq, Repr, Inhabited

/-- A directive declaration handed to the Schema constructor. -/
structure HostDirective where
  name : String
deriving DecidableEq, Repr, Inhabited

/-- Modelled from the spec: registration performed by the type-declaration
collaborator (`strawberry.schema.types`, not under `src/`): every reachable
type "is registered into the Type Registry exactly once, keyed by name"
(spec §4.1); an already-present name is not re-inserted. -/
def registerType (n : String) (ct : ConcreteType) (m : TypeMap) : TypeMap :=
  if (m.find? (fun p => p.1 == n)).isSome then m else m ++ [(n, ct)]

/-- Modelled from the spec: `get_object_type` (`strawberry.schema.types`,
not under `src/`): "given a host type declaration, produce a ConcreteType
with a definition tagged object/scalar/enum, registering nested/reachable
types as a side effect into a supplied registry" (spec §6), keyed by name
(spec §4.1). Returns the engine-native object type and the updated
registry. -/
def get_object_type (t : HostType) (m : TypeMap) : GraphQLObjectType × TypeMap :=
  (⟨t.name⟩, registerType t.name ⟨Definition.objectDef t.name⟩ m)

/-- Modelled from the spec: `get_directive_type` (`strawberry.schema.types`,
not under `src/`): directives "are converted to engine-native directive
descriptors" (spec §4.1); the registry argument mirrors the Python call
shape and is returned unchanged, the spec assigning directives no registry
entry. -/
def get_directive_type (d : HostDirective) (m : TypeMap) : GraphQLDirective × TypeMap :=
  (⟨d.name⟩, m)

/-- Modelled from the spec: an extension instance handed to the Schema
constructor (spec §3, §4.3); opaque to the orchestration layer apart from
an identifier. -/
structure Extension where
  id : String
deriving DecidableEq, Repr, Inhabited

/-- A mapping from extension identifier to the structured value it
collected for a request (spec §4.3, "get extension results"); the values
themselves are opaque payloads. -/
abbrev ExtMap := List (String × Nat)

/-- Modelled from the spec: `ExtensionsRunner` (`strawberry.extensions`,
not under `src/`): "created once per Schema (not per request) holding the
ordered list of Extension instances; for each request it tracks per-request
results" (spec §3). -/
structure ExtensionsRunner where
  extensions : List Extension
  perRequestResults : ExtMap
deriving DecidableEq, Repr, Inhabited

/-- Modelled from the spec: `ExtensionsRunner(extensions)` construction:
holds the extension list, with no request yet run. -/
def ExtensionsRunner.init (extensions : List Extension) : ExtensionsRunner :=
  { extensions := extensions, perRequestResults := [] }

/-- Modelled from the spec: `get_extensions_results()` "returns a mapping
from extension identifier to whatever structured value that extension
collected for the just-completed request" (spec §4.3): a pure read of the
per-request result storage. -/
def ExtensionsRunner.get_extensions_results (r : ExtensionsRunner) : ExtMap :=
  r.perRequestResults

/-- Engine-native execution result (`graphql.ExecutionResult`): resolved
data (nullable) and the collected error sequence, both opaque payloads. -/
structure GraphQLExecutionResult where
  data : Option Nat
  errors : List String
deriving DecidableEq, Repr, Inhabited

/-- Modelled from the spec: the value the engine's execute primitive
returns — "either a completed result or an awaitable of one" (spec §6).
An awaitable carries the result that awaiting it would produce. -/
inductive EngineValue where
  | completed : GraphQLExecutionResult → EngineValue
  | awaitable : GraphQLExecutionResult → EngineValue
deriving DecidableEq, Repr, Inhabited

/-- `if isawaitable(result): result = await result`: the completed result
an engine value yields once awaited. -/
def EngineValue.awaited : EngineValue → GraphQLExecutionResult
  | .completed r => r
  | .awaitable r => r

/-- The host-language exceptions this development distinguishes.
`synchronousExecutionError` and `schemaConfigurationError` are the
spec-named errors (spec §4.4, §4.1); they appear here so theorems can
state whether the code raises them. `attributeError`, `typeError` and
`keyError` are the host language's own failures; `graphQLSyntaxError` is
the query-text parser's failure. -/
inductive PyError where
  | attributeError
  | typeError
  | keyError
  | synchronousExecutionError
  | schemaConfigurationError
  | graphQLSyntaxError : String → PyError
deriving DecidableEq, Repr, Inhabited

/-- The field-resolution interceptors (`..middleware`): the only variant
constructed by `schema.py` is `DirectivesMiddleware(directives)`, built
from the directive declarations passed at construction. -/
inductive Middleware where
  | directivesMiddleware : List HostDirective → Middleware
deriving DecidableEq, Repr, Inhabited

/-- Engine-native schema handle (`graphql.GraphQLSchema`): per spec §6 the
schema-assembly primitive is opaque; the handle records exactly the
arguments `Schema.__init__` passes to it. -/
structure GraphQLSchema where
  query : GraphQLObjectType
  mutation : Option GraphQLObjectType
  subscription : Option GraphQLObjectType
  directives : List GraphQLDirective
  types : List GraphQLObjectType
deriving DecidableEq, Repr, Inhabited

/-- Modelled from the spec: the normalized response type `ExecutionResult`
(`strawberry.schema.base`, not under `src/`): `data` (nullable), `errors`
(ordered sequence), `extensions` (mapping collected by the Extensions
Runner) — spec §3. -/
structure ExecutionResult where
  data : Option Nat
  errors : List String
  extensions : ExtMap
deriving DecidableEq, Repr, Inhabited

/-- Parsed query document (the AST produced by `graphql.parse`), opaque. -/
structure DocumentAST where
  node : Nat
deriving DecidableEq, Repr, Inhabited

/-- The argument bundle `Schema.execute` / `Schema.execute_sync` hand to
the engine's execute primitive (`strawberry.schema.execute.execute`, spec
§6): schema handle, raw (unparsed) query text, variables, root, context,
operation name, the middleware list, and the extension instances held by
the extensions runner that is passed along. -/
structure ExecuteArgs where
  schema : GraphQLSchema
  query : String
  variable_values : Option (List (String × Nat))
  root_value : Option Nat
  context_value : Option Nat
  operation_name : Option String
  additional_middlewares : List Middleware
  extensions : List Extension
deriving DecidableEq, Repr, Inhabited

/-- The argument bundle `Schema.subscribe` hands to the engine's
subscription primitive (`graphql.subscription.subscribe`): schema handle,
parsed document, root, context, variables, operation name — and nothing
else: the call in `schema.py` passes no middleware list and no extensions
runner. -/
structure SubscribeArgs where
  schema : GraphQLSchema
  document : DocumentAST
  root_value : Option Nat
  context_value : Option Nat
  variable_values : Option (List (String × Nat))
  operation_name : Option String
deriving DecidableEq, Repr, Inhabited

/-- Modelled from the spec: the external query engine as an explicit
interface (spec §6, §9 "define it as an explicit interface
(schema-assembly, execute, subscribe, parse)"):
`executeResult` — the execute primitive's return value, "either a
completed result or an awaitable of one";
`collectExtensions` — the per-request data the extension hooks run by the
execute primitive collect for this request (spec §4.3: fresh per-request
extension state, a function of the request alone);
`subscribeEvents` — the subscription primitive's "lazy event sequence";
`parse` — the query-text parser, which fails on invalid query text. -/
structure Engine where
  executeResult : ExecuteArgs → EngineValue
  collectExtensions : ExecuteArgs → ExtMap
  subscribeEvents : SubscribeArgs → List GraphQLExecutionResult
  parse : String → Except PyError DocumentAST

/-- The `Schema` aggregate: the fields assigned by `Schema.__init__`. -/
structure Schema where
  type_map : TypeMap
  middleware : List Middleware
  _schema : GraphQLSchema
  query : ConcreteType
  extensions_runner : ExtensionsRunner
deriving DecidableEq, Repr, Inhabited

/-- `get_object_type(t, m) if t else None`: the guarded conversion used
for the optional mutation and subscription roots. -/
def registerOpt (t : Option HostType) (m : TypeMap) :
    Option GraphQLObjectType × TypeMap :=
  match t with
  | some ht => let r := get_object_type ht m; (some r.1, r.2)
  | none => (none, m)

/-- `[get_object_type(type, self.type_map) for type in types]`: the list
comprehension converting (and registering) the auxiliary types, threading
the registry left to right. -/
def registerList (ts : List HostType)
    (acc : List GraphQLObjectType × TypeMap) :
    List GraphQLObjectType × TypeMap :=
  ts.foldl
    (fun a t =>
      let r := get_object_type t a.2
      (a.1 ++ [r.1], r.2))
    acc

/-- `[get_directive_type(directive, self.type_map) for directive in
directives]`: the list comprehension converting the caller-supplied
directives, threading the registry left to right. -/
def convertDirectives (ds : List HostDirective)
    (acc : List GraphQLDirective × TypeMap) :
    List GraphQLDirective × TypeMap :=
  ds.foldl
    (fun a d =>
      let r := get_directive_type d a.2
      (a.1 ++ [r.1], r.2))
    acc

/-- `Schema.__init__`, translated statement by statement. The `query`
parameter is `Option` so that omitting the required positional argument is
representable: Python raises `TypeError` before the body runs. The body:
build the registry through `get_object_type` for query/mutation/
subscription, set `self.middleware = [DirectivesMiddleware(directives)]`,
convert the directives, assemble the engine-native schema with
`specified_directives + directives` and the converted auxiliary types,
set `self.query = self.type_map[query_type.name]` (a dict indexing, hence
`keyError` when absent), and create the extensions runner. -/
def Schema.construct (query : Option HostType) (mutation : Option HostType)
    (subscription : Option HostType) (directives : List HostDirective)
    (types : List HostType) (extensions : List Extension) :
    Except PyError Schema :=
  match query with
  | none => .error .typeError
  | some q =>
    let m0 : TypeMap := []
    let qr := get_object_type q m0
    let query_type := qr.1
    let m1 := qr.2
    let mr := registerOpt mutation m1
    let mutation_type := mr.1
    let m2 := mr.2
    let sr := registerOpt subscription m2
    let subscription_type := sr.1
    let m3 := sr.2
    let middleware : List Middleware := [Middleware.directivesMiddleware directives]
    let dr := convertDirectives directives ([], m3)
    let directiveTypes := dr.1
    let m4 := dr.2
    let tr := registerList types ([], m4)
    let typeObjs := tr.1
    let m5 := tr.2
    let gschema : GraphQLSchema :=
      { query := query_type
        mutation := mutation_type
        subscription := subscription_type
        directives := specified_directives ++ directiveTypes
        types := typeObjs }
    match TypeMap.find m5 query_type.name with
    | none => .error .keyError
    | some ct =>
      .ok { type_map := m5
            middleware := middleware
            _schema := gschema
            query := ct
            extensions_runner := ExtensionsRunner.init extensions }

/-- `Schema.get_type_by_name`: `if name in self.type_map: return
self.type_map[name].definition; return None`. -/
def Schema.get_type_by_name (s : Schema) (name : String) : Option Definition :=
  match TypeMap.find s.type_map name with
  | some ct => some ct.definition
  | none => none

/-- The arguments `execute` and `execute_sync` pass to the engine's
execute primitive: both call it with the same keyword arguments —
the schema handle, the raw query text, variables, root, context,
operation name, `additional_middlewares=self.middleware`, and
`extensions_runner=self.extensions_runner` (whose extension list is what
the hooks run over). -/
def Schema.executeArgs (s : Schema) (query : String)
    (variable_values : Option (List (String × Nat)))
    (context_value : Option Nat) (root_value : Option Nat)
    (operation_name : Option String) : ExecuteArgs :=
  { schema := s._schema
    query := query
    variable_values := variable_values
    root_value := root_value
    context_value := context_value
    operation_name := operation_name
    additional_middlewares := s.middleware
    extensions := s.extensions_runner.extensions }

/-- Modelled from the spec: one call of the engine's execute primitive
with the extensions runner passed along. It produces the engine value and
leaves the runner holding exactly the per-request data collected for this
request (spec §4.3: "each call into the Execution Façade must
reset/return fresh per-request extension state"; "a later request's
`getExtensionsResults()` must never reflect an earlier request's data"). -/
def runEngineExecute (e : Engine) (args : ExecuteArgs)
    (runner : ExtensionsRunner) : EngineValue × ExtensionsRunner :=
  (e.executeResult args,
   { runner with perRequestResults := e.collectExtensions args })

/-- `Schema.execute` (async): call the engine's execute primitive, await
the result when it is awaitable, and return
`ExecutionResult(data=result.data, errors=result.errors,
extensions=self.extensions_runner.get_extensions_results())`. The updated
Schema (whose runner holds this request's extension data) is returned
alongside, making the mutation of the shared runner explicit. -/
def Schema.execute (e : Engine) (s : Schema) (query : String)
    (variable_values : Option (List (String × Nat)))
    (context_value : Option Nat) (root_value : Option Nat)
    (operation_name : Option String) : ExecutionResult × Schema :=
  let args := s.executeArgs query variable_values context_value root_value
    operation_name
  let call := runEngineExecute e args s.extensions_runner
  let result := call.1.awaited
  let runner2 := call.2
  ({ data := result.data
     errors := result.errors
     extensions := runner2.get_extensions_results },
   { s with extensions_runner := runner2 })

/-- `Schema.execute_sync`: the same engine call, but the result is used
directly — there is no `isawaitable` branch. On a completed result the
attribute reads `result.data` / `result.errors` succeed and the normalized
`ExecutionResult` is built; on an awaitable (a pending coroutine), the
attribute read `result.data` fails with the host language's
`AttributeError`, which propagates to the caller. -/
def Schema.execute_sync (e : Engine) (s : Schema) (query : String)
    (variable_values : Option (List (String × Nat)))
    (context_value : Option Nat) (root_value : Option Nat)
    (operation_name : Option String) :
    Except PyError (ExecutionResult × Schema) :=
  let args := s.executeArgs query variable_values context_value root_value
    operation_name
  let call := runEngineExecute e args s.extensions_runner
  let runner2 := call.2
  match call.1 with
  | .completed result =>
    .ok ({ data := result.data
           errors := result.errors
           extensions := runner2.get_extensions_results },
         { s with extensions_runner := runner2 })
  | .awaitable _ => .error .attributeError

/-- `Schema.subscribe`: `await subscribe(self._schema, parse(query),
root_value=..., context_value=..., variable_values=...,
operation_name=...)`. `parse(query)` runs first; a parse failure raises
to the caller before the subscription primitive is invoked. No middleware
list and no extensions runner appear among the arguments. -/
def Schema.subscribe (e : Engine) (s : Schema) (query : String)
    (variable_values : Option (List (String × Nat)))
    (context_value : Option Nat) (root_value : Option Nat)
    (operation_name : Option String) :
    Except PyError (List GraphQLExecutionResult) :=
  match e.parse query with
  | .error err => .error err
  | .ok doc =>
    .ok (e.subscribeEvents
      { schema := s._schema
        document := doc
        root_value := root_value
        context_value := context_value
        variable_values := variable_values
        operation_name := operation_name })

deriving instance DecidableEq for Except

/-- A concrete fully synchronous engine used to instantiate theorems:
its execute primitive always returns a completed result, and its parser
fails exactly on empty query text. -/
def syncEngine : Engine :=
  { executeResult := fun args =>
      .completed { data := some args.query.length, errors := [] }
    collectExtensions := fun args => [("timer", args.query.length)]
    subscribeEvents := fun args =>
      [{ data := some args.document.node, errors := [] }]
    parse := fun q =>
      if q = "" then .error (.graphQLSyntaxError "Syntax Error: Unexpected <EOF>.")
      else .ok ⟨q.length⟩ }

/-- A concrete engine whose execute primitive always returns a pending
awaitable: the situation of an asynchronous resolver graph. -/
def pendingEngine : Engine :=
  { executeResult := fun _ => .awaitable { data := some 7, errors := [] }
    collectExtensions := fun _ => []
    subscribeEvents := fun _ => []
    parse := fun _ => .ok ⟨0⟩ }

/-- A concretely constructed Schema used to instantiate theorems: query
root `Query`, mutation root `Mutation`, one caller-supplied directive, one
auxiliary type, one extension. -/
def sampleSchema : Schema :=
  (Schema.construct (some ⟨"Query"⟩) (some ⟨"Mutation"⟩) none
    [⟨"lower"⟩] [⟨"Extra"⟩] [⟨"timer"⟩]).toOption.getD default

/-- Registry well-formedness (spec §3 invariant): every entry's definition
carries exactly the name it is keyed under. -/
def TypeMap.WF (m : TypeMap) : Prop :=
  ∀ p ∈ m, p.2.definition.name = p.1

theorem TypeMap.wf_nil : TypeMap.WF [] := by
  intro p hp
  cases hp

theorem wf_registerType {m : TypeMap} {n : String} {ct : ConcreteType}
    (hm : TypeMap.WF m) (h : ct.definition.name = n) :
    TypeMap.WF (registerType n ct m) := by
  unfold registerType
  split
  · exact hm
  · intro p hp
    rcases List.mem_append.mp hp with h1 | h2
    · exact hm p h1
    · have hpe : p = (n, ct) := by simpa using h2
      subst hpe
      exact h

theorem wf_get_object_type {m : TypeMap} (t : HostType) (hm : TypeMap.WF m) :
    TypeMap.WF (get_object_type t m).2 :=
  wf_registerType hm rfl

theorem wf_registerOpt {m : TypeMap} (t : Option HostType) (hm : TypeMap.WF m) :
    TypeMap.WF (registerOpt t m).2 := by
  cases t with
  | none => exact hm
  | some ht => exact wf_get_object_type ht hm

theorem wf_registerList (ts : List HostType)
    (acc : List GraphQLObjectType × TypeMap) (hm : TypeMap.WF acc.2) :
    TypeMap.WF (registerList ts acc).2 := by
  induction ts generalizing acc with
  | nil => exact hm
  | cons t ts ih => exact ih _ (wf_get_object_type t hm)

theorem convertDirectives_eq (ds : List HostDirective)
    (acc : List GraphQLDirective × TypeMap) :
    convertDirectives ds acc =
      (acc.1 ++ ds.map (fun d => GraphQLDirective.mk d.name), acc.2) := by
  induction ds generalizing acc with
  | nil => simp [convertDirectives]
  | cons d ds ih =>
    have hstep : convertDirectives (d :: ds) acc =
        convertDirectives ds (acc.1 ++ [GraphQLDirective.mk d.name], acc.2) := rfl
    rw [hstep, ih]
    simp

/-- Characterization of a successful construction: the fields of the
resulting Schema in terms of the construction inputs. -/
theorem construct_ok_elim (q : HostType) (mu su : Option HostType)
    (ds : List HostDirective) (ts : List HostType) (exs : List Extension)
    (s : Schema) (h : Schema.construct (some q) mu su ds ts exs = .ok s) :
    s.type_map =
      (registerList ts ([],
        (convertDirectives ds ([],
          (registerOpt su (registerOpt mu (get_object_type q []).2).2).2)).2)).2 ∧
    s.middleware = [Middleware.directivesMiddleware ds] ∧
    s._schema.directives = specified_directives ++
      ds.map (fun d => GraphQLDirective.mk d.name) ∧
    s.extensions_runner = ExtensionsRunner.init exs := by
  simp only [Schema.construct] at h
  split at h
  · exact absurd h (by simp)
  · injection h with h2
    subst h2
    refine ⟨rfl, rfl, ?_, rfl⟩
    simp [convertDirectives_eq]

theorem TypeMap.find_mem {m : TypeMap} {n : String} {ct : ConcreteType}
    (h : TypeMap.find m n = some ct) : (n, ct) ∈ m := by
  unfold TypeMap.find at h
  cases hf : m.find? (fun p => p.1 == n) with
  | none => rw [hf] at h; cases h
  | some p =>
    rw [hf] at h
    have hp := List.find?_some hf
    have hmem : p ∈ m := List.mem_of_find?_eq_some hf
    have h1 : p.1 = n := by simpa using hp
    have h2 : p.2 = ct := by simpa using h
    have hpe : p = (n, ct) := by
      cases p
      simp_all
    rwa [hpe] at hmem

/-- A successfully constructed Schema has a well-formed registry. -/
theorem construct_wf (q : HostType) (mu su : Option HostType)
    (ds : List HostDirective) (ts : List HostType) (exs : List Extension)
    (s : Schema) (h : Schema.construct (some q) mu su ds ts exs = .ok s) :
    TypeMap.WF s.type_map := by
  obtain ⟨hmap, -, -, -⟩ := construct_ok_elim q mu su ds ts exs s h
  rw [hmap]
  apply wf_registerList
  show TypeMap.WF (convertDirectives ds _).2
  rw [convertDirectives_eq]
  show TypeMap.WF (registerOpt su _).2
  apply wf_registerOpt
  apply wf_registerOpt
  exact wf_get_object_type q TypeMap.wf_nil

/-- C7 counterexample: omitting the required query root argument fails at
construction with the host language's missing-argument TypeError, not with
a SchemaConfigurationError. -/
theorem construct_no_query_cex :
    Schema.construct none none none [] [] [] = .error PyError.typeError ∧
    Schema.construct none none none [] [] [] ≠
      .error PyError.schemaConfigurationError := by
  exact ⟨rfl, by decide⟩

/-- C7 (amended): constructing a Schema without a query root type fails at
construction time, synchronously — but with the host language's
missing-required-argument TypeError; no SchemaConfigurationError is
raised (no such error is defined by the code). -/
theorem construct_no_query (mu su : Option HostType) (ds : List HostDirective)
    (ts : List HostType) (exs : List Extension) :
    Schema.construct none mu su ds ts exs = .error PyError.typeError := rfl

/-- C8 counterexample: a caller-supplied directive named `skip`, colliding
with the built-in `@skip`, does not make construction fail; the assembled
engine-native schema keeps both entries. -/
theorem duplicate_directive_cex :
    (Schema.construct (some ⟨"Query"⟩) none none [⟨"skip"⟩] [] []).toOption.isSome
      = true ∧
    ((Schema.construct (some ⟨"Query"⟩) none none [⟨"skip"⟩] [] []).toOption.getD
        default)._schema.directives =
      [⟨"include"⟩, ⟨"skip"⟩, ⟨"deprecated"⟩, ⟨"skip"⟩] := by
  exact ⟨rfl, by decide⟩

/-- C8 (amended): for every Schema construction, the directive set of the
assembled engine-native schema is the fixed baseline set of built-in
directives followed by the caller-supplied directives converted to
engine-native descriptors, in caller order; a duplicate name between a
caller-supplied and a built-in directive is not rejected — construction
succeeds and both entries are kept. -/
theorem schema_directives_assembled (q : HostType) (mu su : Option HostType)
    (ds : List HostDirective) (ts : List HostType) (exs : List Extension)
    (s : Schema) (h : Schema.construct (some q) mu su ds ts exs = .ok s) :
    s._schema.directives =
      specified_directives ++ ds.map (fun d => GraphQLDirective.mk d.name) :=
  (construct_ok_elim q mu su ds ts exs s h).2.2.1

/-- Witness for C8 (amended) at the concretely constructed sample. -/
theorem schema_directives_assembled_witness :
    sampleSchema._schema.directives =
      specified_directives ++
        [HostDirective.mk "lower"].map (fun d => GraphQLDirective.mk d.name) :=
  schema_directives_assembled ⟨"Query"⟩ (some ⟨"Mutation"⟩) none
    [⟨"lower"⟩] [⟨"Extra"⟩] [⟨"timer"⟩] sampleSchema (by decide)

/-- C1 counterexample: with an engine whose execute primitive returns a
pending awaitable, execute_sync does not raise the
SynchronousExecutionError the spec names — it fails with AttributeError
(and returns no ExecutionResult). -/
theorem execute_sync_pending_cex :
    Schema.execute_sync pendingEngine sampleSchema "{ ping }" none none none none
      = .error PyError.attributeError ∧
    Schema.execute_sync pendingEngine sampleSchema "{ ping }" none none none none
      ≠ .error PyError.synchronousExecutionError := by
  exact ⟨rfl, by decide⟩

/-- C1 (amended): whenever the engine's execute primitive returns a
pending awaitable value, execute_sync neither returns an ExecutionResult
nor raises a SynchronousExecutionError: reading the data attribute off the
pending value fails with the host language's AttributeError, which
propagates to the caller. -/
theorem execute_sync_pending (e : Engine) (s : Schema) (q : String)
    (v : Option (List (String × Nat))) (c r : Option Nat) (o : Option String)
    (res : GraphQLExecutionResult)
    (h : e.executeResult (s.executeArgs q v c r o) = .awaitable res) :
    Schema.execute_sync e s q v c r o = .error PyError.attributeError := by
  simp only [Schema.execute_sync, runEngineExecute]
  rw [h]

/-- Witness for C1 (amended) at the pending sample engine. -/
theorem execute_sync_pending_witness :
    Schema.execute_sync pendingEngine sampleSchema "{ a }" none none none none
      = .error PyError.attributeError :=
  execute_sync_pending pendingEngine sampleSchema "{ a }" none none none none
    { data := some 7, errors := [] } rfl

/-- C3: for every constructed Schema and every name, get_type_by_name
returns the definition of the ConcreteType registered in the type registry
under exactly that name — so the returned definition's name matches the
queried name — and returns none when no type was registered under that
name. -/
theorem get_type_by_name_correct (q : HostType) (mu su : Option HostType)
    (ds : List HostDirective) (ts : List HostType) (exs : List Extension)
    (s : Schema) (h : Schema.construct (some q) mu su ds ts exs = .ok s)
    (name : String) :
    (∀ ct, TypeMap.find s.type_map name = some ct →
      s.get_type_by_name name = some ct.definition ∧
      ct.definition.name = name) ∧
    (TypeMap.find s.type_map name = none →
      s.get_type_by_name name = none) := by
  have hwf : TypeMap.WF s.type_map := construct_wf q mu su ds ts exs s h
  constructor
  · intro ct hct
    refine ⟨?_, hwf _ (TypeMap.find_mem hct)⟩
    unfold Schema.get_type_by_name
    rw [hct]
  · intro hn
    unfold Schema.get_type_by_name
    rw [hn]

/-- Witness for C3 at the concretely constructed sample Schema. -/
theorem get_type_by_name_correct_witness :
    (∀ ct, TypeMap.find sampleSchema.type_map "Query" = some ct →
      sampleSchema.get_type_by_name "Query" = some ct.definition ∧
      ct.definition.name = "Query") ∧
    (TypeMap.find sampleSchema.type_map "Query" = none →
      sampleSchema.get_type_by_name "Query" = none) :=
  get_type_by_name_correct ⟨"Query"⟩ (some ⟨"Mutation"⟩) none
    [⟨"lower"⟩] [⟨"Extra"⟩] [⟨"timer"⟩] sampleSchema (by decide) "Query"

/-- C4: for every constructed Schema, the middleware list handed to the
engine's execute primitive by execute and execute_sync (the
`additional_middlewares` slot of the argument bundle both build through
`Schema.executeArgs`) has as its first element the DirectivesMiddleware
constructed from the directive declarations passed at construction —
indeed it is the entire list. -/
theorem middleware_first_directives (q : HostType) (mu su : Option HostType)
    (ds : List HostDirective) (ts : List HostType) (exs : List Extension)
    (s : Schema) (h : Schema.construct (some q) mu su ds ts exs = .ok s)
    (query : String) (v : Option (List (String × Nat))) (c r : Option Nat)
    (o : Option String) :
    (s.executeArgs query v c r o).additional_middlewares.head? =
      some (Middleware.directivesMiddleware ds) ∧
    (s.executeArgs query v c r o).additional_middlewares =
      [Middleware.directivesMiddleware ds] := by
  have hm := (construct_ok_elim q mu su ds ts exs s h).2.1
  constructor
  · show s.middleware.head? = _
    rw [hm]
    rfl
  · exact hm

/-- Witness for C4 at the concretely constructed sample Schema. -/
theorem middleware_first_directives_witness :
    (sampleSchema.executeArgs "{ ping }" none none none none).additional_middlewares.head?
      = some (Middleware.directivesMiddleware [⟨"lower"⟩]) ∧
    (sampleSchema.executeArgs "{ ping }" none none none none).additional_middlewares
      = [Middleware.directivesMiddleware [⟨"lower"⟩]] :=
  middleware_first_directives ⟨"Query"⟩ (some ⟨"Mutation"⟩) none
    [⟨"lower"⟩] [⟨"Extra"⟩] [⟨"timer"⟩] sampleSchema (by decide)
    "{ ping }" none none none none

/-- C2: whenever the engine's execute primitive returns a completed
(non-awaitable) result for the given query, variables, context, root and
operation name, execute and execute_sync on the same Schema return
ExecutionResults with identical data and identical errors. -/
theorem execute_sync_agrees_with_execute (e : Engine) (s : Schema)
    (q : String) (v : Option (List (String × Nat))) (c r : Option Nat)
    (o : Option String) (res : GraphQLExecutionResult)
    (h : e.executeResult (s.executeArgs q v c r o) = .completed res) :
    ∃ p, Schema.execute_sync e s q v c r o = .ok p ∧
      p.1.data = (Schema.execute e s q v c r o).1.data ∧
      p.1.errors = (Schema.execute e s q v c r o).1.errors := by
  refine ⟨Schema.execute e s q v c r o, ?_, rfl, rfl⟩
  simp only [Schema.execute_sync, Schema.execute, runEngineExecute]
  rw [h]
  rfl

/-- Witness for C2 at the synchronous sample engine. -/
theorem execute_sync_agrees_with_execute_witness :
    ∃ p, Schema.execute_sync syncEngine sampleSchema "{ ping }" none none none none
        = .ok p ∧
      p.1.data =
        (Schema.execute syncEngine sampleSchema "{ ping }" none none none none).1.data ∧
      p.1.errors =
        (Schema.execute syncEngine sampleSchema "{ ping }" none none none none).1.errors :=
  execute_sync_agrees_with_execute syncEngine sampleSchema "{ ping }"
    none none none none { data := some 8, errors := [] } rfl

/-- C6: when the engine call yields the completed result `res`, both
execute and execute_sync return an ExecutionResult whose data and errors
are `res`'s unchanged (non-null data beside non-empty errors included) and
whose extensions field is the get_extensions_results snapshot of the
runner as it stands after the engine call. -/
theorem result_passthrough (e : Engine) (s : Schema) (q : String)
    (v : Option (List (String × Nat))) (c r : Option Nat) (o : Option String)
    (res : GraphQLExecutionResult)
    (h : e.executeResult (s.executeArgs q v c r o) = .completed res) :
    (Schema.execute e s q v c r o).1 =
      { data := res.data
        errors := res.errors
        extensions := (runEngineExecute e (s.executeArgs q v c r o)
          s.extensions_runner).2.get_extensions_results } ∧
    Schema.execute_sync e s q v c r o =
      .ok ({ data := res.data
             errors := res.errors
             extensions := (runEngineExecute e (s.executeArgs q v c r o)
               s.extensions_runner).2.get_extensions_results },
           { s with extensions_runner :=
               (runEngineExecute e (s.executeArgs q v c r o)
                 s.extensions_runner).2 }) := by
  constructor
  · simp only [Schema.execute, runEngineExecute]
    rw [h]
    rfl
  · simp only [Schema.execute_sync, runEngineExecute]
    rw [h]

/-- Witness for C6 at the synchronous sample engine, with a result that
carries non-null data beside a non-empty error list. -/
theorem result_passthrough_witness :
    (Schema.execute syncEngine sampleSchema "{ ping }" none none none none).1 =
      { data := some 8
        errors := ([] : List String)
        extensions := (runEngineExecute syncEngine
          (sampleSchema.executeArgs "{ ping }" none none none none)
          sampleSchema.extensions_runner).2.get_extensions_results } ∧
    Schema.execute_sync syncEngine sampleSchema "{ ping }" none none none none =
      .ok ({ data := some 8
             errors := ([] : List String)
             extensions := (runEngineExecute syncEngine
               (sampleSchema.executeArgs "{ ping }" none none none none)
               sampleSchema.extensions_runner).2.get_extensions_results },
           { sampleSchema with extensions_runner :=
               (runEngineExecute syncEngine
                 (sampleSchema.executeArgs "{ ping }" none none none none)
                 sampleSchema.extensions_runner).2 }) :=
  result_passthrough syncEngine sampleSchema "{ ping }" none none none none
    { data := some 8, errors := [] } rfl

/-- C9: per-request extension data never leaks across sequential
requests, even though the one ExtensionsRunner instance is shared: the
second request's extensions snapshot is exactly the data collected for the
second request alone, and the second request's observable result (through
execute or execute_sync) is identical to what a fresh first request with
the same inputs would produce. -/
theorem extensions_no_leak (e : Engine) (s : Schema) (q1 : String)
    (v1 : Option (List (String × Nat))) (c1 r1 : Option Nat)
    (o1 : Option String) (q2 : String) (v2 : Option (List (String × Nat)))
    (c2 r2 : Option Nat) (o2 : Option String) :
    (Schema.execute e (Schema.execute e s q1 v1 c1 r1 o1).2 q2 v2 c2 r2 o2).1.extensions
      = e.collectExtensions (s.executeArgs q2 v2 c2 r2 o2) ∧
    (Schema.execute e (Schema.execute e s q1 v1 c1 r1 o1).2 q2 v2 c2 r2 o2).1
      = (Schema.execute e s q2 v2 c2 r2 o2).1 ∧
    (Schema.execute_sync e (Schema.execute e s q1 v1 c1 r1 o1).2 q2 v2 c2 r2 o2).map
        Prod.fst
      = (Schema.execute_sync e s q2 v2 c2 r2 o2).map Prod.fst :=
  ⟨rfl, rfl, rfl⟩

/-- C5: subscribe parses the query text and delegates to the engine's
subscription primitive on the parsed document; the argument bundle holds
only the schema handle, document, root, context, variables and operation
name — no middleware chain and no extensions runner — so the outcome is
invariant under replacing the Schema's middleware and extensions runner
(unlike execute and execute_sync, which hand the middleware list and the
runner to the engine). -/
theorem subscribe_delegates (e : Engine) (s : Schema) (q : String)
    (v : Option (List (String × Nat))) (c r : Option Nat) (o : Option String)
    (mw : List Middleware) (er : ExtensionsRunner) (doc : DocumentAST)
    (h : e.parse q = .ok doc) :
    Schema.subscribe e s q v c r o =
      .ok (e.subscribeEvents
        { schema := s._schema
          document := doc
          root_value := r
          context_value := c
          variable_values := v
          operation_name := o }) ∧
    Schema.subscribe e { s with middleware := mw, extensions_runner := er }
        q v c r o
      = Schema.subscribe e s q v c r o := by
  constructor
  · simp only [Schema.subscribe]
    rw [h]
  · rfl

/-- Witness for C5 at the synchronous sample engine. -/
theorem subscribe_delegates_witness :
    Schema.subscribe syncEngine sampleSchema "{ ping }" none none none none =
      .ok (syncEngine.subscribeEvents
        { schema := sampleSchema._schema
          document := ⟨8⟩
          root_value := none
          context_value := none
          variable_values := none
          operation_name := none }) ∧
    Schema.subscribe syncEngine
        { sampleSchema with middleware := [], extensions_runner := ⟨[], []⟩ }
        "{ ping }" none none none none
      = Schema.subscribe syncEngine sampleSchema "{ ping }" none none none none :=
  subscribe_delegates syncEngine sampleSchema "{ ping }" none none none none
    [] ⟨[], []⟩ ⟨8⟩ rfl

/-- C10: for a syntactically invalid query string, subscribe raises the
query-text parser's error directly to the caller — no event sequence and
no ExecutionResult recording the failure — while execute and execute_sync
pass the unparsed query text to the engine (their argument bundle carries
the raw text, and neither consults the parser at all: replacing it leaves
them unchanged). -/
theorem subscribe_parse_error (e : Engine) (s : Schema) (q : String)
    (v : Option (List (String × Nat))) (c r : Option Nat) (o : Option String)
    (err : PyError) (p2 : String → Except PyError DocumentAST)
    (h : e.parse q = .error err) :
    Schema.subscribe e s q v c r o = .error err ∧
    (s.executeArgs q v c r o).query = q ∧
    Schema.execute { e with parse := p2 } s q v c r o =
      Schema.execute e s q v c r o ∧
    Schema.execute_sync { e with parse := p2 } s q v c r o =
      Schema.execute_sync e s q v c r o := by
  refine ⟨?_, rfl, rfl, rfl⟩
  simp only [Schema.subscribe]
  rw [h]

/-- Witness for C10: the sample engine's parser rejects the empty query. -/
theorem subscribe_parse_error_witness :
    Schema.subscribe syncEngine sampleSchema "" none none none none =
      .error (PyError.graphQLSyntaxError "Syntax Error: Unexpected <EOF>.") ∧
    (sampleSchema.executeArgs "" none none none none).query = "" ∧
    Schema.execute { syncEngine with parse := fun _ => .ok ⟨0⟩ } sampleSchema
        "" none none none none
      = Schema.execute syncEngine sampleSchema "" none none none none ∧
    Schema.execute_sync { syncEngine with parse := fun _ => .ok ⟨0⟩ } sampleSchema
        "" none none none none
      = Schema.execute_sync syncEngine sampleSchema "" none none none none :=
  subscribe_parse_error syncEngine sampleSchema "" none none none none
    (PyError.graphQLSyntaxError "Syntax Error: Unexpected <EOF>.")
    (fun _ => .ok ⟨0⟩) rfl
